import Mathlib

/-!
Verification model of the AI-Customer-Ticket-Resolution-Bot repository.

Text is modelled as `List Char` (Python `str`); keyword matching, the tier
classifier, the RAG fallback chain and the ticket-processing pipeline are
shallow embeddings of `ai_engine.py`, `ticket_processor.py` and `models.py`.

Confidence scores: the Python code computes `min(cap, base + score*0.1)` with
IEEE-754 doubles, where `score` is a keyword count (0-6 per set).  For every
reachable count the double result is exactly the decimal value
(`0.5 + 0.1 == 0.6`, `0.5 + 2*0.1 == 0.7`, `0.6 + 0.1 == 0.7`,
`0.5 + 4*0.1 == 0.9` all hold exactly in binary64 round-to-nearest-even), so
every confidence the classifier can produce is an exact multiple of 1/10 and
every comparison the code makes against `0.5`/`0.6` coincides with the exact
rational comparison.  The model therefore carries confidences as `Nat`
numbers of tenths (`6` = `0.6`), with `tenthsQ` translating to `ℚ` in
theorem statements.
-/

abbrev Chars := List Char

/-- A confidence in tenths, viewed as the rational the Python float equals. -/
def tenthsQ (n : Nat) : ℚ := (n : ℚ) / 10

/-- Python `str.lower()` (ASCII-faithful; all keyword sets are ASCII). -/
def lowerChars (s : Chars) : Chars := s.map Char.toLower

/-- Does the second list start with the first? (helper for `containsSub`). -/
def beginsWith : Chars → Chars → Bool
  | [], _ => true
  | _ :: _, [] => false
  | a :: as, b :: bs => a == b && beginsWith as bs

/-- Python substring test `needle in haystack` (empty needle always matches). -/
def containsSub (needle : Chars) : Chars → Bool
  | [] => needle.isEmpty
  | c :: rest => beginsWith needle (c :: rest) || containsSub needle rest

/-- Count of keywords present in the text, each counted once, by presence
(ai_engine.py lines 112-115). -/
def countMatches (keywords : List Chars) (text : Chars) : Nat :=
  (keywords.filter (fun k => containsSub k text)).length

/-- ai_engine.py line 108. -/
def tier_1_keywords : List Chars :=
  [r"password".data, r"reset".data, r"login".data, r"simple".data,
   r"basic".data, r"help".data]

/-- ai_engine.py line 109. -/
def tier_2_keywords : List Chars :=
  [r"billing".data, r"payment".data, r"subscription".data, r"account".data,
   r"settings".data]

/-- ai_engine.py line 110. -/
def complex_keywords : List Chars :=
  [r"error".data, r"bug".data, r"crash".data, r"system".data,
   r"technical".data, r"critical".data]

inductive Tier where
  | tier_1
  | tier_2
  | complex
deriving DecidableEq

/-- The strings `"tier_1"` / `"tier_2"` / `"complex"` the Python code uses. -/
def tierName : Tier → String
  | Tier.tier_1 => r"tier_1"
  | Tier.tier_2 => r"tier_2"
  | Tier.complex => r"complex"

/-- The combined lower-cased ticket text, subject then a space then the
description (ai_engine.py line 105). -/
def ticketText (subject description : Chars) : Chars :=
  lowerChars (subject ++ [' '] ++ description)

/-- Tier decision of ai_engine.py lines 117-129 from the three match counts;
confidence in tenths (`min(0.9, 0.5 + cx*0.1)` = `min 9 (5 + cx)` tenths,
exactly, per the header comment). -/
def tierConf (t1 t2 cx : Nat) : Tier × Nat :=
  if 0 < cx then (Tier.complex, min 9 (5 + cx))
  else if 0 < t2 then (Tier.tier_2, min 8 (6 + t2))
  else if 0 < t1 then (Tier.tier_1, min 7 (5 + t1))
  else (Tier.complex, 5)

/-- Ordered category table of `AIEngine._determine_category`
(ai_engine.py lines 147-153; Python dicts iterate in insertion order). -/
def categories : List (String × List Chars) :=
  [(r"password_reset",
      [r"password".data, r"reset".data, r"forgot".data, r"login".data,
       r"account".data]),
   (r"billing",
      [r"billing".data, r"payment".data, r"invoice".data, r"charge".data,
       r"subscription".data]),
   (r"technical",
      [r"error".data, r"bug".data, r"crash".data, r"technical".data,
       r"system".data]),
   (r"account",
      [r"account".data, r"profile".data, r"settings".data, r"user".data]),
   (r"general",
      [r"help".data, r"support".data, r"question".data, r"issue".data])]

/-- Model of the category step (ai_engine.py lines 143-159): first entry
of the ordered table with any keyword substring match wins; default
`"general"`. -/
def determine_category (text : Chars) : String :=
  let tl := lowerChars text
  match categories.find? (fun e => e.2.any (fun k => containsSub k tl)) with
  | some e => e.1
  | none => r"general"

/-- Model of the classifier entry point (ai_engine.py lines 98-141), confidence in
tenths.  The body is pure, so its `except` clause (lines 138-141) is
unreachable and not modelled. -/
def categorize_ticket (subject description : Chars) : Tier × Nat × String :=
  let text := ticketText subject description
  let tc := tierConf (countMatches tier_1_keywords text)
    (countMatches tier_2_keywords text)
    (countMatches complex_keywords text)
  (tc.1, tc.2, determine_category text)

/-- Complex-keyword match count of a ticket (used by C7). -/
def complexCount (subject description : Chars) : Nat :=
  countMatches complex_keywords (ticketText subject description)

/-- Tier-1-keyword match count of a ticket (used by C9). -/
def tier1Count (subject description : Chars) : Nat :=
  countMatches tier_1_keywords (ticketText subject description)

/-- Tier-2-keyword match count of a ticket. -/
def tier2Count (subject description : Chars) : Nat :=
  countMatches tier_2_keywords (ticketText subject description)

/-! ## Retriever (RAG fallback chain), ai_engine.py lines 161-243 -/

/-- Python `str.split()`: split on runs of whitespace, no empty tokens
(accumulator holds the current word reversed). -/
def splitWsGo : Chars → Chars → List Chars
  | [], acc => if acc.isEmpty then [] else [acc.reverse]
  | c :: rest, acc =>
      if c.isWhitespace then
        if acc.isEmpty then splitWsGo rest []
        else acc.reverse :: splitWsGo rest []
      else splitWsGo rest (c :: acc)

def splitWs (s : Chars) : List Chars := splitWsGo s []

/-- Python split on the newline character: keeps empty pieces, and splitting
the empty string yields a single empty piece. -/
def splitOnNL : Chars → List Chars
  | [] => [[]]
  | c :: rest =>
      let r := splitOnNL rest
      if c = '\n' then [] :: r
      else
        match r with
        | h :: t => (c :: h) :: t
        | [] => [[c]]

/-- Python `str.strip()`. -/
def stripChars (s : Chars) : Chars :=
  ((s.dropWhile Char.isWhitespace).reverse.dropWhile Char.isWhitespace).reverse

/-- Score of one document in the keyword-overlap fallback
(ai_engine.py line 208): number of query words occurring as substrings of the
lower-cased document. -/
def scoreOf (qwords : List Chars) (doc : Chars) : Nat :=
  (qwords.filter (fun w => containsSub w (lowerChars doc))).length

/-- The `for doc_content in self.knowledge_texts` loop of
`_fallback_rag_response` (ai_engine.py lines 203-211): strict improvement
only, so ties keep the earlier document. -/
def bestLoop (qwords : List Chars) :
    List Chars → Option Chars → Nat → Option Chars × Nat
  | [], best_match, best_score => (best_match, best_score)
  | doc :: rest, best_match, best_score =>
      if best_score < scoreOf qwords doc then
        bestLoop qwords rest (some doc) (scoreOf qwords doc)
      else bestLoop qwords rest best_match best_score

def ragHeader : String := "Based on our knowledge base:\n\n"

def ragDots : String := r"..."

def msgFallbackNotFound : String :=
  "I couldn\u0027t find specific information about that. Please contact human support for assistance."

def msgNoKnowledgeBase : String :=
  "I don\u0027t have access to the knowledge base at the moment. Please contact human support."

def msgEmbedNotFound : String :=
  "I couldn\u0027t find specific information about that in our knowledge base. Please contact human support for assistance."

def msgFoundHeader : String := "Here\u0027s what I found in our knowledge base:\n\n"

/-- Model of the keyword-overlap fallback (ai_engine.py lines 197-220).  The
Python guard `if best_match and best_score > 0` treats both `None` and the
empty string as falsy, hence the `isEmpty` test.  The body is pure, so the
`except` clause (lines 218-220) is unreachable and not modelled. -/
def fallback_rag_response (docs : List Chars) (query : Chars) : Chars :=
  let qwords := splitWs (lowerChars query)
  match bestLoop qwords docs none 0 with
  | (some best, score) =>
      if best.isEmpty = false && 0 < score then
        ragHeader.data ++ best.take 500 ++ ragDots.data
      else msgFallbackNotFound.data
  | (none, _) => msgFallbackNotFound.data

/-- Model of the response formatting step (ai_engine.py lines 222-243):
lines of the document containing any query word (case-insensitively),
stripped, at most 5, joined by newlines; else the first 500 characters.
Pure body, so the `except` clause is unreachable and not modelled. -/
def generate_response_from_doc (query doc : Chars) : Chars :=
  let lines := splitOnNL doc
  let qwords := splitWs (lowerChars query)
  let relevant := (lines.filter
      (fun line => qwords.any (fun w => containsSub w (lowerChars line)))).map
    stripChars
  if relevant.isEmpty then
    msgFoundHeader.data ++ doc.take 500 ++ ragDots.data
  else ragHeader.data ++ List.intercalate ['\n'] (relevant.take 5)

/-- One interaction with the embedding backend: either some step of the
embedding path raised (model encode, cosine similarity, indexing), or it
produced the argmax index together with the result of the float comparison
`similarity_score > 0.3`.  Embedding inference and float cosine similarity
are external to the core and abstracted as this oracle. -/
inductive EmbOutcome where
  | raised
  | best (idx : Nat) (above : Bool)

/-- State of an `AIEngine` instance: knowledge texts in load order, whether
`self.embedding_model` and `self.knowledge_embeddings` are both truthy, and
the abstract embedding oracle. -/
structure AIState where
  knowledge_texts : List Chars
  hasEmbeddings : Bool
  emb : Chars → EmbOutcome

/-- Model of the retriever entry point (ai_engine.py lines 161-195).  An exception
anywhere in the embedding path (`EmbOutcome.raised`, or an out-of-range
argmax index) is caught by the `except` clause and degrades to
`_fallback_rag_response`. -/
def get_rag_response (st : AIState) (query : Chars) : Chars :=
  if st.knowledge_texts.isEmpty then msgNoKnowledgeBase.data
  else if st.hasEmbeddings = false then
    fallback_rag_response st.knowledge_texts query
  else
    match st.emb query with
    | EmbOutcome.raised => fallback_rag_response st.knowledge_texts query
    | EmbOutcome.best idx above =>
        if above then
          match st.knowledge_texts.get? idx with
          | some doc => generate_response_from_doc query doc
          | none => fallback_rag_response st.knowledge_texts query
        else msgEmbedNotFound.data

/-- The C6 example documents. -/
def c6docs : List Chars := [r"reset your password here".data, r"billing invoice details".data]

/-- The C6 example query. -/
def c6query : Chars := r"how do I reset password".data

/-- The highest document score (0 when there are no documents); spec-side
notion used by the C6 refinement. -/
def maxScore (qwords : List Chars) (docs : List Chars) : Nat :=
  (docs.map (scoreOf qwords)).foldr max 0

/-- Modelled from the spec (§4.2 step 3): the spec-side description of
`_fallback_rag_response`, compared against the code-side definition in the
C6 theorem. -/
def spec_fallback_response (docs : List Chars) (query : Chars) : Chars :=
  let qwords := splitWs (lowerChars query)
  let m := maxScore qwords docs
  if 0 < m then
    match docs.find? (fun d => scoreOf qwords d == m) with
    | some best => ragHeader.data ++ best.take 500 ++ ragDots.data
    | none => msgFallbackNotFound.data
  else msgFallbackNotFound.data

/-! ## Triage pipeline: ticket_processor.py, models.py, freshdesk_client.py -/

/-- The dict returned by the AI step consumed by
`TicketProcessor.process_new_ticket` (confidence in tenths). -/
structure AIResult where
  tier : Tier
  confidence : Nat
  category : String
  auto_resolvable : Bool
  escalation_needed : Bool
  escalation_reason : Option Chars
  response : Chars

/-- Modelled from the spec: `AIEngine.process_ticket` is invoked at
ticket_processor.py line 36 but is defined nowhere in the repository; spec
§4.4 steps 2-4 describe the missing step (classify, compute the disposition
flags `autoResolve = (tier == tier_1) AND (confidence > 0.6)` and
`needsEscalation = (tier == complex) OR (confidence < 0.5)`, call the
Retriever on subject-space-description, fix an escalation reason when
needed).  Confidence tenths: `0.6 < conf` is `6 < n`, `conf < 0.5` is
`n < 5`. -/
def process_ticket (st : AIState) (subject description : Chars) : AIResult :=
  let r := categorize_ticket subject description
  { tier := r.1
    confidence := r.2.1
    category := r.2.2
    auto_resolvable := r.1 == Tier.tier_1 && 6 < r.2.1
    escalation_needed := r.1 == Tier.complex || r.2.1 < 5
    escalation_reason :=
      if r.1 == Tier.complex || r.2.1 < 5 then
        some (r"Complex issue requiring human intervention").data
      else none
    response := get_rag_response st (subject ++ [' '] ++ description) }

/-- A row of the `tickets` table (models.py lines 10-30), with the fields the
pipeline writes.  `freshdesk_id` is declared `unique=True`; confidence in
tenths. -/
structure TicketRec where
  id : Nat
  freshdesk_id : Option Int
  subject : Chars
  description : Chars
  customer_email : Chars
  priority : Int
  status : String
  category : String
  tier : Tier
  confidence_score : Nat
  auto_resolved : Bool
  escalation_reason : Option Chars
  bot_response : Chars
  assigned_to : Option String
deriving DecidableEq

/-- A row of the `ticket_history` table (models.py lines 32-39). -/
structure HistRec where
  ticket_id : Nat
  action : String
  details : Chars
deriving DecidableEq

/-- Database state: the two tables plus the autoincrement counter. -/
structure DBState where
  tickets : List TicketRec
  history : List HistRec
  nextId : Nat
deriving DecidableEq

/-- Is a row with this (non-null) freshdesk_id already present?  The column
has a SQLite UNIQUE index (models.py line 14); NULLs never conflict. -/
def hasFreshdeskId (db : DBState) (fid : Option Int) : Bool :=
  match fid with
  | none => false
  | some x => db.tickets.any (fun t => t.freshdesk_id == some x)

/-- A call issued by `TicketProcessor` on its `FreshdeskClient` instance
(the granularity at which a test double records helpdesk side effects;
each client method internally wraps HTTP requests and never raises,
freshdesk_client.py lines 19-41). -/
inductive FdCall where
  | addNote (ticket_id : Option Int) (note : Chars) (is_private : Bool)
  | autoResolve (ticket_id : Option Int) (response : Chars)
  | escalate (ticket_id : Option Int) (reason : Chars)
  | updateStatus (ticket_id : Option Int) (code : Int)
  | getTicket (ticket_id : Int)
deriving DecidableEq

/-- Python `str(x)` for the requester id (`None` when absent). -/
def pyStrOfOptInt : Option Int → Chars
  | none => (r"None").data
  | some n => (toString n).data

/-- Python `f"{conf:.3f}"` for a confidence of `n` tenths (exact for every
reachable value, which is a multiple of 0.1). -/
def fmt3 (n : Nat) : Chars :=
  (toString (n / 10) ++ r"." ++ toString (n % 10) ++ r"00").data

def escNoteP1 : String := "🚨 ESCALATED TO HUMAN AGENT\n\nReason: "

def escNoteP2 : String := "\n\nAI Classification: "

def escNoteP3 : String := " tier\nConfidence: "

def escNoteP4 : String := "\n\n"

/-- The private escalation note of ticket_processor.py line 134.
`ai_result.get('escalation_reason', default)` is modelled with `getD`; the
modelled AI step always sets the reason on the escalation path, where this
note is built, so the default branch agrees with the Python `dict.get`. -/
def escalation_note (r : AIResult) : Chars :=
  escNoteP1.data
    ++ r.escalation_reason.getD (r"Complex issue requiring human intervention").data
    ++ escNoteP2.data ++ (tierName r.tier).data ++ escNoteP3.data
    ++ fmt3 r.confidence ++ escNoteP4.data ++ r.response

/-- Replace the first list element satisfying the test (SQLAlchemy
`query(...).filter(...).first()` followed by field writes and commit). -/
def updateFirst (p : TicketRec → Bool) (f : TicketRec → TicketRec) :
    List TicketRec → List TicketRec
  | [] => []
  | t :: ts => if p t then f t :: ts else t :: updateFirst p f ts

/-- The first-match update used by the handlers: filter on freshdesk_id then
update; `ticket_id = None` renders as IS NULL, matched by `none = none`. -/
def updateByFid (db : DBState) (fid : Option Int) (f : TicketRec → TicketRec) :
    DBState :=
  { db with tickets := updateFirst (fun t => t.freshdesk_id == fid) f db.tickets }

/-- Model of the auto-resolve handler (ticket_processor.py
lines 101-126).  `ok c = false` models the claim-level scenario of a helpdesk
client call raising inside the handler `try`: the handler body is abandoned
and the exception is caught and logged by its `except` clause. -/
def handle_auto_resolvable (ok : FdCall → Bool) (tid : Option Int)
    (r : AIResult) (db : DBState) : DBState × List FdCall :=
  let c1 := FdCall.addNote tid r.response false
  if ok c1 = false then (db, [c1])
  else
    let c2 := FdCall.autoResolve tid r.response
    if ok c2 = false then (db, [c1, c2])
    else
      (updateByFid db tid
        (fun t => { t with status := r"resolved", auto_resolved := true }),
       [c1, c2])

/-- Model of the escalation handler (ticket_processor.py
lines 128-158). -/
def handle_escalation (ok : FdCall → Bool) (tid : Option Int)
    (r : AIResult) (db : DBState) : DBState × List FdCall :=
  let c1 := FdCall.addNote tid (escalation_note r) true
  if ok c1 = false then (db, [c1])
  else
    let c2 := FdCall.escalate tid
      (r.escalation_reason.getD (r"Complex issue").data)
    if ok c2 = false then (db, [c1, c2])
    else
      (updateByFid db tid
        (fun t => { t with status := r"escalated",
                           assigned_to := some (r"human_agent") }),
       [c1, c2])

/-- Model of the tier-2 handler (ticket_processor.py
lines 160-184); status code 3 is Freshdesk "pending". -/
def handle_tier_2 (ok : FdCall → Bool) (tid : Option Int)
    (r : AIResult) (db : DBState) : DBState × List FdCall :=
  let c1 := FdCall.addNote tid r.response false
  if ok c1 = false then (db, [c1])
  else
    let c2 := FdCall.updateStatus tid 3
    if ok c2 = false then (db, [c1, c2])
    else (updateByFid db tid (fun t => { t with status := r"pending" }), [c1, c2])

/-- Model of the store step (ticket_processor.py lines 71-99): an
unconditional INSERT.  When the payload id already has a row, the UNIQUE
index on `freshdesk_id` makes the commit raise IntegrityError; the method
rolls back and re-raises (line 96-99).  On success returns the new internal
id. -/
def store_ticket (db : DBState) (fid : Option Int)
    (subject description email : Chars) (priority : Int) (r : AIResult) :
    Except Unit (DBState × Nat) :=
  if hasFreshdeskId db fid then Except.error ()
  else
    Except.ok
      ({ db with
          tickets := db.tickets ++
            [{ id := db.nextId
               freshdesk_id := fid
               subject := subject
               description := description
               customer_email := email
               priority := priority
               status := r"open"
               category := r.category
               tier := r.tier
               confidence_score := r.confidence
               auto_resolved := r.auto_resolvable
               escalation_reason := r.escalation_reason
               bot_response := r.response
               assigned_to := none }]
          nextId := db.nextId + 1 },
       db.nextId)

def histDetailsP1 : String := "AI classified as "

def histDetailsP2 : String := " with "

def histDetailsP3 : String := " confidence"

/-- Model of the history logger (ticket_processor.py
lines 186-199): plain INSERT into ticket_history, no constraints. -/
def log_ticket_history (db : DBState) (ticket_id : Nat) (action : String)
    (details : Chars) : DBState :=
  { db with history := db.history ++
      [{ ticket_id := ticket_id, action := action, details := details }] }

/-- An incoming webhook/API ticket payload (the dict fields
`process_new_ticket` reads). -/
structure Payload where
  id : Option Int
  subject : Option Chars
  description : Option Chars
  requester_id : Option Int
  priority : Option Int

/-- The dict returned by `process_new_ticket` / `reprocess_ticket`: the
success dict of ticket_processor.py lines 52-62 or a failure dict
`{success: false, error: msg}`. -/
structure ProcResult where
  success : Bool
  error : Option Chars := none
  ticket_id : Option Int := none
  tier : Option Tier := none
  confidence : Option Nat := none
  category : Option String := none
  auto_resolvable : Option Bool := none
  escalated : Option Bool := none
  priority : Option Int := none
deriving DecidableEq

/-- Message of the IntegrityError raised by the duplicate-insert commit. -/
def integrityMsg : String := "UNIQUE constraint failed: tickets.freshdesk_id"

/-- Model of the processing entry point (ticket_processor.py lines 20-69).
The AI step is the spec-modelled `process_ticket` (see its comment).  A
store failure propagates to the outer `except` which returns the failure
dict; handler-internal failures do not escape (they are caught inside the
handlers); the history insert always succeeds. -/
def process_new_ticket (ai : AIState) (ok : FdCall → Bool) (db : DBState)
    (p : Payload) : ProcResult × DBState × List FdCall :=
  let tid := p.id
  let subject := p.subject.getD []
  let description := p.description.getD []
  let email := pyStrOfOptInt p.requester_id
  let priority := (p.priority.getD 1)
  let r := process_ticket ai subject description
  match store_ticket db tid subject description email priority r with
  | Except.error _ =>
      ({ success := false, error := some integrityMsg.data }, db, [])
  | Except.ok (db1, internalId) =>
      let step :=
        if r.auto_resolvable then handle_auto_resolvable ok tid r db1
        else if r.escalation_needed then handle_escalation ok tid r db1
        else handle_tier_2 ok tid r db1
      let db3 := log_ticket_history step.1 internalId (r"processed")
        (histDetailsP1.data ++ (tierName r.tier).data ++ histDetailsP2.data
          ++ fmt3 r.confidence ++ histDetailsP3.data)
      ({ success := true
         error := none
         ticket_id := tid
         tier := some r.tier
         confidence := some r.confidence
         category := some r.category
         auto_resolvable := some r.auto_resolvable
         escalated := some r.escalation_needed
         priority := some priority },
       db3, step.2)

/-- Model of the reprocess entry point (ticket_processor.py lines 221-234):
re-fetch the payload from the helpdesk (an `Option`-returning client call,
freshdesk_client.py line 43), fail with "Ticket not found" when absent, else
run `process_new_ticket` again. -/
def reprocess_ticket (ai : AIState) (ok : FdCall → Bool)
    (fdget : Int → Option Payload) (db : DBState) (ticket_id : Int) :
    ProcResult × DBState × List FdCall :=
  match fdget ticket_id with
  | none =>
      ({ success := false, error := some (r"Ticket not found").data }, db,
       [FdCall.getTicket ticket_id])
  | some p =>
      let out := process_new_ticket ai ok db p
      (out.1, out.2.1, FdCall.getTicket ticket_id :: out.2.2)

/-- Number of stored tickets carrying a given external id. -/
def countFid (db : DBState) (x : Int) : Nat :=
  (db.tickets.filter (fun t => t.freshdesk_id == some x)).length

/-! ## Concrete fixtures for the end-to-end claims -/

def emptyDB : DBState := { tickets := [], history := [], nextId := 1 }

/-- An engine with no knowledge documents and no embedding backend. -/
def aiNoKB : AIState :=
  { knowledge_texts := [], hasEmbeddings := false,
    emb := fun _ => EmbOutcome.raised }

def allOk : FdCall → Bool := fun _ => true

def allFail : FdCall → Bool := fun _ => false

def c1subject : String := "forgot password"

def c1desc : String := "can't login"

/-- The C1 payload (the spec end-to-end example has no external id). -/
def c1Payload : Payload :=
  { id := none, subject := some c1subject.data, description := some c1desc.data,
    requester_id := none, priority := some 1 }

/-- The C2 payload: same ticket text, with an external id. -/
def c2Payload : Payload :=
  { id := some 101, subject := some c1subject.data,
    description := some c1desc.data, requester_id := some 5,
    priority := some 1 }

def c2run1 : ProcResult × DBState × List FdCall :=
  process_new_ticket aiNoKB allOk emptyDB c2Payload

def c2run2 : ProcResult × DBState × List FdCall :=
  process_new_ticket aiNoKB allOk c2run1.2.1 c2Payload

/-- The C4 payload: subject and description both missing. -/
def c4Payload : Payload :=
  { id := some 7, subject := none, description := none,
    requester_id := none, priority := some 2 }

/-- A second C4 payload: only the subject is missing. -/
def c4bPayload : Payload :=
  { id := some 8, subject := none,
    description := some (r"printer is smoking badly".data),
    requester_id := none, priority := some 1 }

def c4run : ProcResult × DBState × List FdCall :=
  process_new_ticket aiNoKB allOk emptyDB c4Payload

/-! ## Classifier lemmas -/

theorem categorize_eq (s d : Chars) :
    categorize_ticket s d =
      ((tierConf (tier1Count s d) (tier2Count s d) (complexCount s d)).1,
       (tierConf (tier1Count s d) (tier2Count s d) (complexCount s d)).2,
       determine_category (ticketText s d)) := rfl

theorem tierConf_conf_bounds (t1 t2 cx : Nat) :
    5 ≤ (tierConf t1 t2 cx).2 ∧ (tierConf t1 t2 cx).2 ≤ 9 := by
  unfold tierConf
  split_ifs <;> refine ⟨?_, ?_⟩ <;> omega

theorem tierConf_tier1_inv {t1 t2 cx : Nat}
    (h : (tierConf t1 t2 cx).1 = Tier.tier_1) :
    cx = 0 ∧ t2 = 0 ∧ 0 < t1 ∧ (tierConf t1 t2 cx).2 = min 7 (5 + t1) := by
  unfold tierConf at h ⊢
  split_ifs at h ⊢ with h1 h2 h3
  exact ⟨by omega, by omega, by omega, rfl⟩

theorem tierConf_complex_case {t1 t2 cx : Nat} (h : 0 < cx) :
    tierConf t1 t2 cx = (Tier.complex, min 9 (5 + cx)) := by
  simp [tierConf, h]

theorem tierConf_default_case {t1 t2 cx : Nat} (h1 : t1 = 0) (h2 : t2 = 0)
    (h3 : cx = 0) : tierConf t1 t2 cx = (Tier.complex, 5) := by
  simp [tierConf, h1, h2, h3]

theorem tenthsQ_le_tenthsQ {m n : Nat} (h : m ≤ n) : tenthsQ m ≤ tenthsQ n := by
  unfold tenthsQ
  have hc : (m : ℚ) ≤ n := by exact_mod_cast h
  linarith

theorem tenthsQ_conf_formula (cx : Nat) :
    tenthsQ (min 9 (5 + cx)) = min (9/10) (1/2 + (cx : ℚ)/10) := by
  unfold tenthsQ
  rw [Nat.cast_min]
  rw [← min_div_div_right (by norm_num : (0:ℚ) ≤ 10)]
  congr 1
  push_cast
  ring

/-- C3 counterexample: the text "forgot invoice" matches none of the tier-1 /
tier-2 / complex keywords, yet `categorize_ticket` returns category
`"password_reset"` (the category table is independent of the tier keyword
sets), not `"general"` as the claim states. -/
theorem C3_counterexample :
    tier1Count (r"forgot".data) (r"invoice".data) = 0
    ∧ tier2Count (r"forgot".data) (r"invoice".data) = 0
    ∧ complexCount (r"forgot".data) (r"invoice".data) = 0
    ∧ categorize_ticket (r"forgot".data) (r"invoice".data)
        = (Tier.complex, 5, r"password_reset")
    ∧ ((categorize_ticket (r"forgot".data) (r"invoice".data)).2.2
        == r"general") = false := by
  refine ⟨by decide, by decide, by decide, by decide, by decide⟩

/-- C3 amended: with zero matches in all three tier keyword sets,
`categorize_ticket` returns tier `complex` with confidence exactly 0.5, and
the category is computed independently from the ordered category table (it
need not be `"general"`). -/
theorem C3_zero_match_default (s d : Chars)
    (h1 : tier1Count s d = 0) (h2 : tier2Count s d = 0)
    (h3 : complexCount s d = 0) :
    (categorize_ticket s d).1 = Tier.complex
    ∧ (categorize_ticket s d).2.1 = 5
    ∧ tenthsQ (categorize_ticket s d).2.1 = 1/2
    ∧ (categorize_ticket s d).2.2 = determine_category (ticketText s d) := by
  rw [categorize_eq, tierConf_default_case h1 h2 h3]
  exact ⟨rfl, rfl, by norm_num [tenthsQ], rfl⟩

/-- C3 witness: a concrete no-keyword ticket hits the default branch. -/
theorem C3_zero_match_default_witness :
    (categorize_ticket (r"hello".data) (r"there".data)).1 = Tier.complex
    ∧ (categorize_ticket (r"hello".data) (r"there".data)).2.1 = 5 := by
  have h := C3_zero_match_default (r"hello".data) (r"there".data)
    (by decide) (by decide) (by decide)
  exact ⟨h.1, h.2.1⟩

/-- C7: any text with at least one complex keyword classifies as `complex`
with confidence `min(0.9, 0.5 + 0.1*complexCount)`, inside [0.5, 0.9],
saturating at 0.9 from four distinct matches on, monotonically non-decreasing
in the number of matching complex keywords. -/
theorem C7_complex_monotone (s d s2 d2 : Chars)
    (h1 : 0 < complexCount s d)
    (h2 : complexCount s d ≤ complexCount s2 d2) :
    (categorize_ticket s d).1 = Tier.complex
    ∧ tenthsQ (categorize_ticket s d).2.1
        = min (9/10) (1/2 + (complexCount s d : ℚ)/10)
    ∧ (1:ℚ)/2 ≤ tenthsQ (categorize_ticket s d).2.1
    ∧ tenthsQ (categorize_ticket s d).2.1 ≤ 9/10
    ∧ (4 ≤ complexCount s d → tenthsQ (categorize_ticket s d).2.1 = 9/10)
    ∧ tenthsQ (categorize_ticket s d).2.1
        ≤ tenthsQ (categorize_ticket s2 d2).2.1 := by
  have hv1 : (categorize_ticket s d).2.1 = min 9 (5 + complexCount s d) := by
    rw [categorize_eq, @tierConf_complex_case (tier1Count s d) (tier2Count s d)
      (complexCount s d) h1]
  have ht : (categorize_ticket s d).1 = Tier.complex := by
    rw [categorize_eq, @tierConf_complex_case (tier1Count s d) (tier2Count s d)
      (complexCount s d) h1]
  have h1b : 0 < complexCount s2 d2 := lt_of_lt_of_le h1 h2
  have hv2 : (categorize_ticket s2 d2).2.1 = min 9 (5 + complexCount s2 d2) := by
    rw [categorize_eq, @tierConf_complex_case (tier1Count s2 d2)
      (tier2Count s2 d2) (complexCount s2 d2) h1b]
  refine ⟨ht, ?_, ?_, ?_, ?_, ?_⟩
  · rw [hv1, tenthsQ_conf_formula]
  · rw [hv1]
    calc (1:ℚ)/2 = tenthsQ 5 := by norm_num [tenthsQ]
      _ ≤ tenthsQ (min 9 (5 + complexCount s d)) :=
        tenthsQ_le_tenthsQ (by omega)
  · rw [hv1]
    calc tenthsQ (min 9 (5 + complexCount s d)) ≤ tenthsQ 9 :=
        tenthsQ_le_tenthsQ (by omega)
      _ = 9/10 := by norm_num [tenthsQ]
  · intro h4
    rw [hv1]
    have h9 : min 9 (5 + complexCount s d) = 9 := by omega
    rw [h9]
    norm_num [tenthsQ]
  · rw [hv1, hv2]
    exact tenthsQ_le_tenthsQ (by omega)

/-- C7 witness: one complex keyword versus four. -/
theorem C7_complex_monotone_witness :
    (categorize_ticket (r"error".data) []).1 = Tier.complex
    ∧ tenthsQ (categorize_ticket (r"error".data) []).2.1
        ≤ tenthsQ (categorize_ticket (r"error bug crash system".data) []).2.1 := by
  have h := C7_complex_monotone (r"error".data) [] (r"error bug crash system".data)
    [] (by decide) (by decide)
  exact ⟨h.1, h.2.2.2.2.2⟩

/-- C9: every confidence lies in [0.5, 0.9]; a `tier_1` result lies in
[0.6, 0.7]; with exactly one tier-1 keyword match a `tier_1` result has
confidence exactly 0.6, which fails the auto-resolve test `0.6 < confidence`. -/
theorem C9_confidence_ranges (s d : Chars) :
    ((1:ℚ)/2 ≤ tenthsQ (categorize_ticket s d).2.1
      ∧ tenthsQ (categorize_ticket s d).2.1 ≤ 9/10)
    ∧ ((categorize_ticket s d).1 = Tier.tier_1 →
        (6:ℚ)/10 ≤ tenthsQ (categorize_ticket s d).2.1
        ∧ tenthsQ (categorize_ticket s d).2.1 ≤ 7/10)
    ∧ ((categorize_ticket s d).1 = Tier.tier_1 → tier1Count s d = 1 →
        tenthsQ (categorize_ticket s d).2.1 = 6/10
        ∧ ¬ ((6:ℚ)/10 < tenthsQ (categorize_ticket s d).2.1)) := by
  have h1 : (categorize_ticket s d).1
      = (tierConf (tier1Count s d) (tier2Count s d) (complexCount s d)).1 := rfl
  have h2 : (categorize_ticket s d).2.1
      = (tierConf (tier1Count s d) (tier2Count s d) (complexCount s d)).2 := rfl
  obtain ⟨hl, hr⟩ :=
    tierConf_conf_bounds (tier1Count s d) (tier2Count s d) (complexCount s d)
  refine ⟨⟨?_, ?_⟩, ?_, ?_⟩
  · rw [h2]
    calc (1:ℚ)/2 = tenthsQ 5 := by norm_num [tenthsQ]
      _ ≤ _ := tenthsQ_le_tenthsQ hl
  · rw [h2]
    calc tenthsQ _ ≤ tenthsQ 9 := tenthsQ_le_tenthsQ hr
      _ = 9/10 := by norm_num [tenthsQ]
  · intro ht
    obtain ⟨hcx, ht2, ht1p, hv⟩ := tierConf_tier1_inv (h1.symm.trans ht)
    constructor
    · rw [h2, hv]
      calc (6:ℚ)/10 = tenthsQ 6 := by norm_num [tenthsQ]
        _ ≤ tenthsQ (min 7 (5 + tier1Count s d)) :=
          tenthsQ_le_tenthsQ (by omega)
    · rw [h2, hv]
      calc tenthsQ (min 7 (5 + tier1Count s d)) ≤ tenthsQ 7 :=
          tenthsQ_le_tenthsQ (by omega)
        _ = 7/10 := by norm_num [tenthsQ]
  · intro ht hone
    obtain ⟨hcx, ht2, ht1p, hv⟩ := tierConf_tier1_inv (h1.symm.trans ht)
    have hv6 : (tierConf (tier1Count s d) (tier2Count s d)
        (complexCount s d)).2 = 6 := by
      rw [hv, hone]
      omega
    rw [h2, hv6]
    constructor
    · norm_num [tenthsQ]
    · norm_num [tenthsQ]

/-- C9 witness: a single tier-1 keyword gives tier_1 with confidence 0.6. -/
theorem C9_confidence_ranges_witness :
    tenthsQ (categorize_ticket (r"password".data) (r"aaa".data)).2.1 = 6/10 := by
  have h := C9_confidence_ranges (r"password".data) (r"aaa".data)
  exact (h.2.2 (by decide) (by decide)).1

/-! ## Retriever theorems -/

theorem isEmpty_append_left {l m : Chars} (h : l.isEmpty = false) :
    (l ++ m).isEmpty = false := by
  cases l
  · simp at h
  · rfl

theorem fallback_ne (docs : List Chars) (q : Chars) :
    (fallback_rag_response docs q).isEmpty = false := by
  rcases hbl : bestLoop (splitWs (lowerChars q)) docs none 0 with ⟨bm, bs⟩
  cases bm
  · simp only [fallback_rag_response, hbl]
    decide
  · simp only [fallback_rag_response, hbl]
    split
    · exact isEmpty_append_left (isEmpty_append_left (by decide))
    · decide

theorem generate_ne (q doc : Chars) :
    (generate_response_from_doc q doc).isEmpty = false := by
  simp only [generate_response_from_doc]
  split
  · exact isEmpty_append_left (isEmpty_append_left (by decide))
  · exact isEmpty_append_left (by decide)

/-- C5: `get_rag_response` is a total function of its inputs in this model
(every exception path of the Python code is modelled as a caught branch:
`EmbOutcome.raised`, an out-of-range argmax, or fallback), and on every
branch it returns a non-empty string. -/
theorem C5_never_empty (st : AIState) (q : Chars) :
    (get_rag_response st q).isEmpty = false := by
  unfold get_rag_response
  split_ifs with hkb hemb
  · decide
  · exact fallback_ne _ _
  · cases he : st.emb q with
    | raised => exact fallback_ne _ _
    | best idx above =>
      cases above
      · show msgEmbedNotFound.data.isEmpty = false
        decide
      · show (match st.knowledge_texts.get? idx with
          | some doc => generate_response_from_doc q doc
          | none => fallback_rag_response st.knowledge_texts q).isEmpty = false
        rcases hg : st.knowledge_texts.get? idx with _ | doc
        · simp only [hg]
          exact fallback_ne _ _
        · simp only [hg]
          exact generate_ne _ _

theorem splitWsGo_words_ne (s : Chars) :
    ∀ (acc : Chars), ∀ w ∈ splitWsGo s acc, w.isEmpty = false := by
  induction s with
  | nil =>
    intro acc w hw
    unfold splitWsGo at hw
    by_cases h : acc.isEmpty
    · simp [h] at hw
    · rw [if_neg h] at hw
      rcases List.mem_singleton.mp hw with rfl
      rcases acc with _ | ⟨a, as⟩
      · simp at h
      · simp
  | cons c rest ih =>
    intro acc w hw
    unfold splitWsGo at hw
    by_cases hws : c.isWhitespace
    · rw [if_pos hws] at hw
      by_cases hacc : acc.isEmpty
      · rw [if_pos hacc] at hw
        exact ih [] w hw
      · rw [if_neg hacc] at hw
        rcases List.mem_cons.mp hw with rfl | hw2
        · rcases acc with _ | ⟨a, as⟩
          · simp at hacc
          · simp
        · exact ih [] w hw2
    · rw [if_neg hws] at hw
      exact ih (c :: acc) w hw

theorem splitWs_words_ne (s : Chars) : ∀ w ∈ splitWs s, w.isEmpty = false :=
  splitWsGo_words_ne s []

theorem scoreOf_nil_doc {qw : List Chars}
    (h : ∀ w ∈ qw, w.isEmpty = false) : scoreOf qw [] = 0 := by
  unfold scoreOf
  rw [List.length_eq_zero, List.filter_eq_nil_iff]
  intro w hw
  have hne := h w hw
  show ¬ containsSub w (lowerChars []) = true
  have he : containsSub w (lowerChars []) = w.isEmpty := rfl
  rw [he, hne]
  simp

theorem le_maxScore (qw : List Chars) :
    ∀ (docs : List Chars) (d : Chars), d ∈ docs →
      scoreOf qw d ≤ maxScore qw docs := by
  intro docs
  induction docs with
  | nil => intro d hd; cases hd
  | cons x xs ih =>
    intro d hd
    have hM : maxScore qw (x :: xs) = max (scoreOf qw x) (maxScore qw xs) := rfl
    rcases List.mem_cons.mp hd with rfl | hd2
    · rw [hM]; omega
    · have := ih d hd2; rw [hM]; omega

theorem maxScore_pos_exists (qw : List Chars) :
    ∀ (docs : List Chars), 0 < maxScore qw docs →
      ∃ d ∈ docs, scoreOf qw d = maxScore qw docs := by
  intro docs
  induction docs with
  | nil => intro h; simp [maxScore] at h
  | cons x xs ih =>
    intro h
    have hM : maxScore qw (x :: xs) = max (scoreOf qw x) (maxScore qw xs) := rfl
    by_cases hc : maxScore qw xs ≤ scoreOf qw x
    · refine ⟨x, List.mem_cons_self x xs, ?_⟩
      rw [hM]; omega
    · have hx : 0 < maxScore qw xs := by omega
      obtain ⟨d, hdmem, hd⟩ := ih hx
      refine ⟨d, List.mem_cons_of_mem _ hdmem, ?_⟩
      rw [hM]; omega

theorem find?_congrOn {α : Type} (p q : α → Bool) :
    ∀ (l : List α), (∀ a ∈ l, p a = q a) → l.find? p = l.find? q := by
  intro l
  induction l with
  | nil => intro _; rfl
  | cons x xs ih =>
    intro h
    have hx := h x (List.mem_cons_self x xs)
    cases hq : q x
    · rw [List.find?_cons_of_neg _ (by rw [hx, hq]; exact Bool.false_ne_true),
        List.find?_cons_of_neg _ (by rw [hq]; exact Bool.false_ne_true)]
      exact ih (fun a ha => h a (List.mem_cons_of_mem _ ha))
    · rw [List.find?_cons_of_pos _ (by rw [hx, hq]),
        List.find?_cons_of_pos _ (by rw [hq])]

theorem bestLoop_eq (qw : List Chars) :
    ∀ (docs : List Chars) (bm : Option Chars) (bs : Nat),
      bestLoop qw docs bm bs =
        if maxScore qw docs ≤ bs then (bm, bs)
        else (docs.find? (fun d2 => maxScore qw docs ≤ scoreOf qw d2),
              maxScore qw docs) := by
  intro docs
  induction docs with
  | nil =>
    intro bm bs
    have h0 : maxScore qw [] = 0 := rfl
    rw [h0, if_pos (Nat.zero_le bs)]
    rfl
  | cons d ds ih =>
    intro bm bs
    have hM : maxScore qw (d :: ds) = max (scoreOf qw d) (maxScore qw ds) := rfl
    have hunf : bestLoop qw (d :: ds) bm bs
        = if bs < scoreOf qw d then bestLoop qw ds (some d) (scoreOf qw d)
          else bestLoop qw ds bm bs := rfl
    rw [hunf]
    by_cases h1 : bs < scoreOf qw d
    · rw [if_pos h1, ih]
      by_cases h2 : maxScore qw ds ≤ scoreOf qw d
      · have hMa : maxScore qw (d :: ds) = scoreOf qw d := by rw [hM]; omega
        simp only [hMa]
        rw [if_pos h2, if_neg (by omega)]
        rw [List.find?_cons_of_pos _ (by simp)]
      · have hMa : maxScore qw (d :: ds) = maxScore qw ds := by rw [hM]; omega
        simp only [hMa]
        rw [if_neg h2, if_neg (by omega)]
        rw [List.find?_cons_of_neg _ (by simpa using h2)]
    · rw [if_neg h1, ih]
      by_cases h2 : maxScore qw ds ≤ bs
      · rw [if_pos h2, if_pos (by rw [hM]; omega)]
      · have hMa : maxScore qw (d :: ds) = maxScore qw ds := by rw [hM]; omega
        simp only [hMa]
        rw [if_neg h2, if_neg (by omega)]
        rw [List.find?_cons_of_neg _ (by simp; omega)]

theorem fallback_eq_spec (docs : List Chars) (query : Chars) :
    fallback_rag_response docs query = spec_fallback_response docs query := by
  simp only [fallback_rag_response, spec_fallback_response]
  rw [bestLoop_eq (splitWs (lowerChars query)) docs none 0]
  by_cases hM : maxScore (splitWs (lowerChars query)) docs ≤ 0
  · rw [if_pos hM,
      if_neg (by omega : ¬ 0 < maxScore (splitWs (lowerChars query)) docs)]
  · have hMpos : 0 < maxScore (splitWs (lowerChars query)) docs := by omega
    rw [if_neg hM, if_pos hMpos]
    obtain ⟨d0, hd0mem, hd0⟩ :=
      maxScore_pos_exists (splitWs (lowerChars query)) docs hMpos
    have hps : (docs.find? (fun d2 =>
        maxScore (splitWs (lowerChars query)) docs
          ≤ scoreOf (splitWs (lowerChars query)) d2)).isSome := by
      rw [List.find?_isSome]
      exact ⟨d0, hd0mem, by simp [hd0]⟩
    obtain ⟨best, hbest⟩ := Option.isSome_iff_exists.mp hps
    have hcong : docs.find? (fun d2 =>
          scoreOf (splitWs (lowerChars query)) d2
            == maxScore (splitWs (lowerChars query)) docs)
        = docs.find? (fun d2 =>
          maxScore (splitWs (lowerChars query)) docs
            ≤ scoreOf (splitWs (lowerChars query)) d2) := by
      apply find?_congrOn
      intro a ha
      have hle := le_maxScore (splitWs (lowerChars query)) docs a ha
      by_cases he : scoreOf (splitWs (lowerChars query)) a
          = maxScore (splitWs (lowerChars query)) docs
      · simp [he]
      · have hlt : ¬ maxScore (splitWs (lowerChars query)) docs
            ≤ scoreOf (splitWs (lowerChars query)) a := by omega
        simp [he, hlt]
    rw [hbest, hcong, hbest]
    have hp := List.find?_some hbest
    have hMle : maxScore (splitWs (lowerChars query)) docs
        ≤ scoreOf (splitWs (lowerChars query)) best := by simpa using hp
    have hbne : best.isEmpty = false := by
      rcases best with _ | ⟨c, cs2⟩
      · exfalso
        have h0 : scoreOf (splitWs (lowerChars query)) [] = 0 :=
          scoreOf_nil_doc (splitWs_words_ne (lowerChars query))
        omega
      · rfl
    simp [hbne, hMpos]

/-- C6: the keyword-overlap fallback scores every document by the number of
whitespace-split lower-cased query tokens occurring as substrings
(`scoreOf`), selects the document with the strictly-highest score with ties
keeping the first document, returns the header-prefixed first-500-characters
excerpt when the best score is positive and the fixed not-found message
otherwise (refinement against the spec-side `spec_fallback_response`); and
on the documents from the claim the first document is returned. -/
theorem C6_fallback_selection :
    (∀ (docs : List Chars) (query : Chars),
        fallback_rag_response docs query = spec_fallback_response docs query)
    ∧ fallback_rag_response c6docs c6query
        = ragHeader.data ++ (r"reset your password here".data) ++ ragDots.data :=
  ⟨fallback_eq_spec, by decide⟩

/-! ## Pipeline lemmas -/

theorem updateFirst_filter_length (p q : TicketRec → Bool)
    (f : TicketRec → TicketRec) (hf : ∀ t, q (f t) = q t) :
    ∀ l : List TicketRec,
      ((updateFirst p f l).filter q).length = (l.filter q).length := by
  intro l
  induction l with
  | nil => rfl
  | cons t ts ih =>
    unfold updateFirst
    by_cases hp : p t
    · rw [if_pos hp]
      cases hq : q t <;> simp [List.filter_cons, hf t, hq]
    · rw [if_neg hp]
      cases hq : q t <;> simp [List.filter_cons, hq, ih]

theorem updateByFid_countFid (db : DBState) (fid : Option Int)
    (f : TicketRec → TicketRec)
    (hf : ∀ t, (f t).freshdesk_id = t.freshdesk_id) (x : Int) :
    countFid (updateByFid db fid f) x = countFid db x := by
  unfold countFid updateByFid
  exact updateFirst_filter_length _ _ f (fun t => by rw [hf t]) db.tickets

theorem handle_auto_preserves (ok : FdCall → Bool) (tid : Option Int)
    (r : AIResult) (db : DBState) (x : Int) :
    (handle_auto_resolvable ok tid r db).1.history = db.history
    ∧ countFid (handle_auto_resolvable ok tid r db).1 x = countFid db x := by
  simp only [handle_auto_resolvable]
  split_ifs with h1 h2
  · exact ⟨rfl, rfl⟩
  · exact ⟨rfl, rfl⟩
  · exact ⟨rfl, updateByFid_countFid db tid
      (fun t => { t with status := r"resolved", auto_resolved := true })
      (fun t => rfl) x⟩

theorem handle_escalation_preserves (ok : FdCall → Bool) (tid : Option Int)
    (r : AIResult) (db : DBState) (x : Int) :
    (handle_escalation ok tid r db).1.history = db.history
    ∧ countFid (handle_escalation ok tid r db).1 x = countFid db x := by
  simp only [handle_escalation]
  split_ifs with h1 h2
  · exact ⟨rfl, rfl⟩
  · exact ⟨rfl, rfl⟩
  · exact ⟨rfl, updateByFid_countFid db tid
      (fun t => { t with status := r"escalated",
                         assigned_to := some (r"human_agent") })
      (fun t => rfl) x⟩

theorem handle_tier_2_preserves (ok : FdCall → Bool) (tid : Option Int)
    (r : AIResult) (db : DBState) (x : Int) :
    (handle_tier_2 ok tid r db).1.history = db.history
    ∧ countFid (handle_tier_2 ok tid r db).1 x = countFid db x := by
  simp only [handle_tier_2]
  split_ifs with h1 h2
  · exact ⟨rfl, rfl⟩
  · exact ⟨rfl, rfl⟩
  · exact ⟨rfl, updateByFid_countFid db tid
      (fun t => { t with status := r"pending" })
      (fun t => rfl) x⟩

theorem dispatch_preserves (ok : FdCall → Bool) (tid : Option Int)
    (r : AIResult) (db : DBState) (x : Int) :
    (if r.auto_resolvable then handle_auto_resolvable ok tid r db
     else if r.escalation_needed then handle_escalation ok tid r db
     else handle_tier_2 ok tid r db).1.history = db.history
    ∧ countFid (if r.auto_resolvable then handle_auto_resolvable ok tid r db
        else if r.escalation_needed then handle_escalation ok tid r db
        else handle_tier_2 ok tid r db).1 x = countFid db x := by
  split_ifs with h1 h2
  · exact handle_auto_preserves ok tid r db x
  · exact handle_escalation_preserves ok tid r db x
  · exact handle_tier_2_preserves ok tid r db x

theorem countFid_insert (db : DBState) (t : TicketRec) (x : Int)
    (ht : t.freshdesk_id = some x) :
    countFid { db with tickets := db.tickets ++ [t], nextId := db.nextId + 1 } x
      = countFid db x + 1 := by
  unfold countFid
  simp [List.filter_append, ht]

theorem hasFreshdeskId_false_countFid {db : DBState} {x : Int}
    (h : hasFreshdeskId db (some x) = false) : countFid db x = 0 := by
  unfold hasFreshdeskId at h
  unfold countFid
  rw [List.length_eq_zero, List.filter_eq_nil_iff]
  intro t ht
  have := List.any_eq_false.mp h t ht
  simpa using this

/-- The fresh-insert branch of `_store_ticket` as an equation. -/
theorem store_ticket_fresh (db : DBState) (fid : Option Int)
    (subject description email : Chars) (priority : Int) (r : AIResult)
    (h : hasFreshdeskId db fid = false) :
    store_ticket db fid subject description email priority r
      = Except.ok
          ({ db with
              tickets := db.tickets ++
                [{ id := db.nextId
                   freshdesk_id := fid
                   subject := subject
                   description := description
                   customer_email := email
                   priority := priority
                   status := r"open"
                   category := r.category
                   tier := r.tier
                   confidence_score := r.confidence
                   auto_resolved := r.auto_resolvable
                   escalation_reason := r.escalation_reason
                   bot_response := r.response
                   assigned_to := none }]
              nextId := db.nextId + 1 },
           db.nextId) := by
  unfold store_ticket
  rw [if_neg (by simp [h])]

/-- Helper: a run on a payload whose external id is not yet stored succeeds,
inserts exactly one ticket row for that id, and appends exactly one history
entry; this holds for every client-call oracle, every engine state and every
ticket text. -/
theorem process_fresh_ok (ai : AIState) (ok : FdCall → Bool) (db : DBState)
    (p : Payload) (x : Int) (hid : p.id = some x)
    (hfree : hasFreshdeskId db (some x) = false) :
    (process_new_ticket ai ok db p).1.success = true
    ∧ (process_new_ticket ai ok db p).1.error = none
    ∧ countFid (process_new_ticket ai ok db p).2.1 x = countFid db x + 1
    ∧ (process_new_ticket ai ok db p).2.1.history.length
        = db.history.length + 1 := by
  simp only [process_new_ticket, hid]
  rw [store_ticket_fresh _ _ _ _ _ _ _ hfree]
  simp only []
  refine ⟨trivial, trivial, ?_, ?_⟩
  · have hlog : ∀ (d : DBState) (i : Nat) (a : String) (de : Chars),
        countFid (log_ticket_history d i a de) x = countFid d x :=
      fun _ _ _ _ => rfl
    rw [hlog]
    rw [(dispatch_preserves ok (some x) _ _ x).2]
    exact countFid_insert db _ x rfl
  · have hlog : ∀ (d : DBState) (i : Nat) (a : String) (de : Chars),
        (log_ticket_history d i a de).history.length = d.history.length + 1 := by
      intro d i a de
      simp [log_ticket_history]
    rw [hlog]
    rw [(dispatch_preserves ok (some x) _ _ x).1]

/-- The duplicate-insert branch of `_store_ticket` as an equation. -/
theorem store_ticket_dup (db : DBState) (fid : Option Int)
    (subject description email : Chars) (priority : Int) (r : AIResult)
    (h : hasFreshdeskId db fid = true) :
    store_ticket db fid subject description email priority r
      = Except.error () := by
  unfold store_ticket
  rw [if_pos (by simp [h])]

/-- Helper: a run on a payload whose external id is already stored fails
with the IntegrityError message and leaves the database untouched. -/
theorem process_dup (ai : AIState) (ok : FdCall → Bool) (db : DBState)
    (p : Payload) (x : Int) (hid : p.id = some x)
    (hdup : hasFreshdeskId db (some x) = true) :
    (process_new_ticket ai ok db p).1.success = false
    ∧ (process_new_ticket ai ok db p).1.error = some integrityMsg.data
    ∧ (process_new_ticket ai ok db p).2.1 = db
    ∧ (process_new_ticket ai ok db p).2.2 = [] := by
  simp only [process_new_ticket, hid]
  rw [store_ticket_dup _ _ _ _ _ _ _ hdup]
  exact ⟨rfl, rfl, rfl, rfl⟩

/-- Helper for C10: a failure result always carries an error message. -/
theorem process_error_shape (ai : AIState) (ok : FdCall → Bool) (db : DBState)
    (p : Payload) :
    (process_new_ticket ai ok db p).1.success = false →
    (process_new_ticket ai ok db p).1.error.isSome = true := by
  intro hs
  by_cases h : hasFreshdeskId db p.id = true
  · simp only [process_new_ticket]
    rw [store_ticket_dup _ _ _ _ _ _ _ h]
    rfl
  · have hfls : hasFreshdeskId db p.id = false := by
      cases hb : hasFreshdeskId db p.id
      · rfl
      · exact absurd hb h
    simp only [process_new_ticket] at hs
    rw [store_ticket_fresh _ _ _ _ _ _ _ hfls] at hs
    simp at hs

/-- C1: the spec end-to-end ticket {subject: forgot password, description:
can-not login, priority: 1} is classified tier_1 with confidence 0.7 > 0.6,
auto-resolve is chosen, the stored ticket ends with status "resolved" and
auto_resolved true, one history entry is appended, and the helpdesk client
receives exactly one public note followed by one resolve call. -/
theorem C1_end_to_end :
    (process_new_ticket aiNoKB allOk emptyDB c1Payload).1.success = true
    ∧ (process_new_ticket aiNoKB allOk emptyDB c1Payload).1.tier
        = some Tier.tier_1
    ∧ (process_new_ticket aiNoKB allOk emptyDB c1Payload).1.confidence
        = some 7
    ∧ (6:ℚ)/10 < tenthsQ 7
    ∧ (process_new_ticket aiNoKB allOk emptyDB c1Payload).1.auto_resolvable
        = some true
    ∧ ((process_new_ticket aiNoKB allOk emptyDB c1Payload).2.1.tickets.map
        (fun t => (t.freshdesk_id, t.status, t.auto_resolved)))
        = [(none, r"resolved", true)]
    ∧ (process_new_ticket aiNoKB allOk emptyDB c1Payload).2.1.history.length = 1
    ∧ (process_new_ticket aiNoKB allOk emptyDB c1Payload).2.2
        = [FdCall.addNote none msgNoKnowledgeBase.data false,
           FdCall.autoResolve none msgNoKnowledgeBase.data] := by
  refine ⟨by decide, by decide, by decide, by norm_num [tenthsQ], by decide,
    by decide, by decide, by decide⟩

/-- C2 counterexample: processing the same external id (101) twice: the
first run succeeds and appends one history entry; the second run fails on
the UNIQUE freshdesk_id index, leaves the store byte-for-byte unchanged, and
appends no history entry — refuting "the second run updates the existing
record" and "each processing run appends exactly one new TicketHistory
entry". -/
theorem C2_counterexample :
    c2run1.1.success = true
    ∧ c2run1.2.1.history.length = 1
    ∧ c2run1.2.1.tickets.length = 1
    ∧ c2run2.1.success = false
    ∧ c2run2.2.1.history.length = 1
    ∧ c2run2.2.1.tickets.length = 1
    ∧ c2run2.2.1 = c2run1.2.1 := by decide

/-- C2 amended: the external id keys at most one Ticket row, but not by
updating: re-processing an already-stored external id fails the unique-index
insert and leaves the store unchanged (no second history entry); a run on a
fresh external id succeeds, stores exactly one row for it and appends
exactly one history entry. -/
theorem C2_unique_insert_semantics (ai : AIState) (ok : FdCall → Bool)
    (db : DBState) (p : Payload) (x : Int) (hid : p.id = some x) :
    (hasFreshdeskId db (some x) = true →
      (process_new_ticket ai ok db p).1.success = false
      ∧ (process_new_ticket ai ok db p).2.1 = db)
    ∧ (hasFreshdeskId db (some x) = false →
      (process_new_ticket ai ok db p).1.success = true
      ∧ countFid (process_new_ticket ai ok db p).2.1 x = 1
      ∧ (process_new_ticket ai ok db p).2.1.history.length
          = db.history.length + 1) := by
  constructor
  · intro hdup
    obtain ⟨h1, _, h3, _⟩ := process_dup ai ok db p x hid hdup
    exact ⟨h1, h3⟩
  · intro hfree
    obtain ⟨h1, _, h3, h4⟩ := process_fresh_ok ai ok db p x hid hfree
    refine ⟨h1, ?_, h4⟩
    rw [h3, hasFreshdeskId_false_countFid hfree]

/-- C2 witness: the amended statement at the concrete C2 payload. -/
theorem C2_unique_insert_semantics_witness :
    (process_new_ticket aiNoKB allOk emptyDB c2Payload).1.success = true
    ∧ countFid (process_new_ticket aiNoKB allOk emptyDB c2Payload).2.1 101 = 1
    ∧ (process_new_ticket aiNoKB allOk emptyDB c2Payload).2.1.history.length
        = emptyDB.history.length + 1 :=
  (C2_unique_insert_semantics aiNoKB allOk emptyDB c2Payload 101 rfl).2
    (by decide)

/-- C4 counterexample: the payload {id: 7, priority: 2} with subject and
description both missing is processed successfully and a Ticket row is
persisted — refuting "returns a failure result and no Ticket record is
persisted". -/
theorem C4_counterexample :
    c4Payload.subject = none ∧ c4Payload.description = none
    ∧ c4run.1.success = true
    ∧ c4run.2.1.tickets.length = 1 := by decide

/-- C4 amended: `process_new_ticket` performs no validation — a payload
missing its subject or its description (or both) has the missing field
default to the empty string and processing proceeds normally: with an unused
external id the run succeeds and persists a ticket
(`TicketValidator.validate_ticket_data` exists in src/src/utils/validators.py
but is never called on this path). -/
theorem C4_missing_fields_processed (ai : AIState) (ok : FdCall → Bool)
    (db : DBState) (p : Payload) (x : Int)
    (_h : p.subject = none ∨ p.description = none)
    (hid : p.id = some x) (hfree : hasFreshdeskId db (some x) = false) :
    (process_new_ticket ai ok db p).1.success = true
    ∧ countFid (process_new_ticket ai ok db p).2.1 x = 1
    ∧ (process_new_ticket ai ok db p).2.1.history.length
        = db.history.length + 1 := by
  obtain ⟨h1, _, h3, h4⟩ := process_fresh_ok ai ok db p x hid hfree
  refine ⟨h1, ?_, h4⟩
  rw [h3, hasFreshdeskId_false_countFid hfree]

/-- C4 witness: the amended statement at the both-missing payload and at a
payload missing only its subject. -/
theorem C4_missing_fields_processed_witness :
    ((process_new_ticket aiNoKB allOk emptyDB c4Payload).1.success = true
      ∧ countFid (process_new_ticket aiNoKB allOk emptyDB c4Payload).2.1 7 = 1
      ∧ (process_new_ticket aiNoKB allOk emptyDB c4Payload).2.1.history.length
          = emptyDB.history.length + 1)
    ∧ ((process_new_ticket aiNoKB allOk emptyDB c4bPayload).1.success = true
      ∧ countFid (process_new_ticket aiNoKB allOk emptyDB c4bPayload).2.1 8 = 1
      ∧ (process_new_ticket aiNoKB allOk emptyDB c4bPayload).2.1.history.length
          = emptyDB.history.length + 1) :=
  ⟨C4_missing_fields_processed aiNoKB allOk emptyDB c4Payload 7 (Or.inl rfl)
      rfl (by decide),
   C4_missing_fields_processed aiNoKB allOk emptyDB c4bPayload 8 (Or.inl rfl)
      rfl (by decide)⟩

/-- C8: even when some helpdesk client call issued during dispatch fails
(the oracle reports it raising inside the handler), the run still returns
success, the inserted Ticket row for the payload id is retained, and the
history entry is still appended — external-service failures are absorbed by
the handler and never become an overall processing failure. -/
theorem C8_external_failure_best_effort (ai : AIState) (ok : FdCall → Bool)
    (db : DBState) (p : Payload) (x : Int) (hid : p.id = some x)
    (hfree : hasFreshdeskId db (some x) = false)
    (_hfail : ∃ c ∈ (process_new_ticket ai ok db p).2.2, ok c = false) :
    (process_new_ticket ai ok db p).1.success = true
    ∧ countFid (process_new_ticket ai ok db p).2.1 x = countFid db x + 1
    ∧ (process_new_ticket ai ok db p).2.1.history.length
        = db.history.length + 1 := by
  obtain ⟨h1, _, h3, h4⟩ := process_fresh_ok ai ok db p x hid hfree
  exact ⟨h1, h3, h4⟩

/-- C8 witness: with every client call failing, the run still succeeds and
both the ticket row and the history entry are kept. -/
theorem C8_external_failure_best_effort_witness :
    (process_new_ticket aiNoKB allFail emptyDB c2Payload).1.success = true
    ∧ countFid (process_new_ticket aiNoKB allFail emptyDB c2Payload).2.1 101
        = countFid emptyDB 101 + 1
    ∧ (process_new_ticket aiNoKB allFail emptyDB c2Payload).2.1.history.length
        = emptyDB.history.length + 1 :=
  C8_external_failure_best_effort aiNoKB allFail emptyDB c2Payload 101 rfl
    (by decide) (by decide)

/-- C10: both entry points are total functions in this model (every modelled
failure source — duplicate insert, missing helpdesk record, failing client
calls — is mapped to a result dict, mirroring the blanket `except` clauses),
and whenever the result has success = false it carries an error message. -/
theorem C10_no_exception_result_shape (ai : AIState) (ok : FdCall → Bool)
    (fdget : Int → Option Payload) (db : DBState) (p : Payload) (tid : Int) :
    ((process_new_ticket ai ok db p).1.success = false →
      (process_new_ticket ai ok db p).1.error.isSome = true)
    ∧ ((reprocess_ticket ai ok fdget db tid).1.success = false →
      (reprocess_ticket ai ok fdget db tid).1.error.isSome = true) := by
  constructor
  · exact process_error_shape ai ok db p
  · rcases hg : fdget tid with _ | p2
    · intro _
      simp only [reprocess_ticket, hg]
      rfl
    · simp only [reprocess_ticket, hg]
      exact process_error_shape ai ok db p2

/-- C10 witness: the result-shape guarantee at concrete inputs. -/
theorem C10_no_exception_result_shape_witness :
    ((process_new_ticket aiNoKB allOk emptyDB c1Payload).1.success = false →
      (process_new_ticket aiNoKB allOk emptyDB c1Payload).1.error.isSome = true)
    ∧ ((reprocess_ticket aiNoKB allOk (fun _ => none) emptyDB 3).1.success
          = false →
      (reprocess_ticket aiNoKB allOk (fun _ => none) emptyDB 3).1.error.isSome
          = true) :=
  C10_no_exception_result_shape aiNoKB allOk (fun _ => none) emptyDB c1Payload 3
